import Mathlib

/-!
Shallow embedding of the conversation-session orchestration layer of the
better_rag frontend: the conversation store (Redux slice reducers in
src/frontend/store/slices, concatenated in appSlice.ts), the query
dispatcher (handleSubmit in the ChatInterface component, concatenated in
src/frontend/components/SourcesPanel.tsx), the source presenter
(SourcesPanel), and the history helpers (ConversationHistory.tsx).
Redux Toolkit reducers run under Immer and are observationally pure
state-to-state functions, so each reducer is embedded as a Lean function
from state to state; timestamps (Date.now / new Date) are passed in as
natural-number parameters.
-/

/-- Sender of a message: the `sender: 'user' | 'assistant'` union type. -/
inductive Sender
  | user
  | assistant
deriving DecidableEq, Repr

/-- A retrieval source, from the `sources` element type of the conversation
slice `Message` interface: `{document_id, filename, chunk_index, similarity,
content}`. Similarity is a real number, embedded as a rational. -/
structure Source where
  document_id : String
  filename : String
  chunk_index : Nat
  similarity : Rat
  content : String
deriving DecidableEq, Repr

/-- A chat message, from the `Message` interface of the conversation slice:
`{id, text, sender, timestamp, sources?}`. The optional `sources` field is
an `Option`. -/
structure Message where
  id : String
  text : String
  sender : Sender
  timestamp : Nat
  sources : Option (List Source) := none
deriving DecidableEq, Repr

/-- A saved conversation, from the `Conversation` interface:
`{id, title, messages, createdAt, updatedAt}`. -/
structure Conversation where
  id : String
  title : String
  messages : List Message
  createdAt : Nat
  updatedAt : Nat
deriving DecidableEq, Repr

/-- The `currentConversation` record of `ConversationState`:
`{messages, isTyping}`. The spec calls `isTyping` the busy flag. -/
structure CurrentConversation where
  messages : List Message
  isTyping : Bool
deriving DecidableEq, Repr

/-- The conversation slice state: `{conversations, activeConversationId,
currentConversation}`. -/
structure ConversationState where
  conversations : List Conversation
  activeConversationId : Option String
  currentConversation : CurrentConversation
deriving DecidableEq, Repr

/-- Replace the first element satisfying `p` by its image under `f`,
leaving the rest unchanged. This is the functional rendering of the
`find`-then-mutate pattern used by the reducers (Immer draft mutation of
the found element). -/
def updateFirst (p : α → Bool) (f : α → α) : List α → List α
  | [] => []
  | a :: rest => if p a then f a :: rest else a :: updateFirst p f rest

/-- Reducer `addMessageToCurrent`: pushes a message onto
`currentConversation.messages`. -/
def addMessageToCurrent (s : ConversationState) (m : Message) : ConversationState :=
  { s with currentConversation :=
      { s.currentConversation with messages := s.currentConversation.messages ++ [m] } }

/-- Reducer `setCurrentTyping`: sets `currentConversation.isTyping`. -/
def setCurrentTyping (s : ConversationState) (b : Bool) : ConversationState :=
  { s with currentConversation := { s.currentConversation with isTyping := b } }

/-- Reducer `clearCurrentConversation`: empties `currentConversation.messages`
and resets `isTyping` to false. -/
def clearCurrentConversation (s : ConversationState) : ConversationState :=
  { s with currentConversation := { messages := [], isTyping := false } }

/-- Reducer `createNewConversation`: builds a conversation whose id is
`Date.now().toString()` (here `toString now`), title from the payload,
messages a copy of `currentConversation.messages`, and
`createdAt = updatedAt = new Date()` (here `now`); unshifts it onto
`conversations`, points `activeConversationId` at it, and empties
`currentConversation.messages`. -/
def createNewConversation (s : ConversationState) (title : String) (now : Nat) :
    ConversationState :=
  let newConv : Conversation :=
    { id := toString now, title := title,
      messages := s.currentConversation.messages,
      createdAt := now, updatedAt := now }
  { s with conversations := newConv :: s.conversations,
           activeConversationId := some newConv.id,
           currentConversation := { s.currentConversation with messages := [] } }

/-- Reducer `loadConversation`: finds the conversation with the given id;
if found, sets `activeConversationId` and replaces
`currentConversation.messages` with a copy of its messages; otherwise
leaves the state untouched. -/
def loadConversation (s : ConversationState) (id : String) : ConversationState :=
  match s.conversations.find? (fun c => c.id == id) with
  | some c =>
      { s with activeConversationId := some id,
               currentConversation := { s.currentConversation with messages := c.messages } }
  | none => s

/-- Reducer `saveCurrentConversation`: if `activeConversationId` is set and
names an existing conversation, overwrites that conversation with a copy of
`currentConversation.messages`, stamps `updatedAt`, and applies the title
from the payload only when it is present and non-empty (the JS code guards
with truthiness: `if (action.payload.title)`). -/
def saveCurrentConversation (s : ConversationState) (title : Option String) (now : Nat) :
    ConversationState :=
  match s.activeConversationId with
  | none => s
  | some aid =>
      match s.conversations.find? (fun c => c.id == aid) with
      | none => s
      | some _ =>
          let save : Conversation → Conversation := fun c =>
            { c with messages := s.currentConversation.messages,
                     updatedAt := now,
                     title := (match title with
                       | some t => if t == "" then c.title else t
                       | none => c.title) }
          { s with conversations := updateFirst (fun c => c.id == aid) save s.conversations }

/-- Reducer `deleteConversation`: filters the conversation out of the list;
if the deleted id equals `activeConversationId`, additionally resets
`activeConversationId` to none and empties `currentConversation.messages`
(the reducer does not touch `isTyping`). -/
def deleteConversation (s : ConversationState) (id : String) : ConversationState :=
  let s1 := { s with conversations := s.conversations.filter (fun c => !(c.id == id)) }
  if s.activeConversationId = some id then
    { s1 with activeConversationId := none,
              currentConversation := { s1.currentConversation with messages := [] } }
  else s1

/-- Reducer `setActiveConversation`: changes the pointer only. -/
def setActiveConversation (s : ConversationState) (id : Option String) : ConversationState :=
  { s with activeConversationId := id }

/-- Reducer `updateConversationTitle`: finds the conversation with the given
id; if found, replaces its title and stamps `updatedAt`; otherwise leaves
the state untouched. -/
def updateConversationTitle (s : ConversationState) (id : String) (title : String)
    (now : Nat) : ConversationState :=
  match s.conversations.find? (fun c => c.id == id) with
  | none => s
  | some _ =>
      let rename : Conversation → Conversation := fun c =>
        { c with title := title, updatedAt := now }
      { s with conversations := updateFirst (fun c => c.id == id) rename s.conversations }

/-- Successful payload of the external query endpoint as consumed by the
dispatcher: the `response` field becomes the assistant text, the optional
`sources` field becomes the assistant sources. -/
structure QueryResponse where
  response : String
  sources : Option (List Source)
deriving DecidableEq, Repr

/-- Outcome of the awaited `queryDocuments` call together with the fate of
the completion handler, embedding the try/catch/finally of `handleSubmit`:
`ok` means the promise resolved with a well-formed payload and the success
handler ran to completion; `okMissingResponse` means the promise resolved
(2xx) but the body lacks the `response` field — the code still takes the
success branch, so `response.response` is the JS value undefined and no
fallback is produced; `queryErr` means the await threw (network error or
non-2xx status, which axios raises as an exception), landing in the catch
block; `handlerErr` means the success handler itself threw before its
append took effect, which also lands in the catch block. In every case the
finally block runs. -/
inductive QueryOutcome
  | ok (r : QueryResponse)
  | okMissingResponse (sources : Option (List Source))
  | queryErr
  | handlerErr
deriving DecidableEq, Repr

/-- The request `queryDocuments` posts to the `/query` endpoint: the trimmed
query text, the language, and the category, which the api layer appends only
when truthy (`if (category)`), so a null or empty category is omitted. -/
structure QueryRequest where
  query : String
  language : String
  category : Option String
deriving DecidableEq, Repr

/-- Drops leading whitespace characters from a character list. -/
def dropLeadingWs : List Char → List Char
  | [] => []
  | c :: cs => if c.isWhitespace then dropLeadingWs cs else c :: cs

/-- The JavaScript `String.prototype.trim()`: whitespace stripped from both
ends, rendered structurally so it evaluates by kernel reduction. -/
def jsTrim (s : String) : String :=
  ⟨dropLeadingWs ((dropLeadingWs s.data.reverse).reverse)⟩

/-- Builds the wire request of `queryDocuments(input.trim(), language,
category)` from src/frontend/services/api.ts. -/
def queryRequest (input language : String) (category : Option String) : QueryRequest :=
  { query := jsTrim input, language := language,
    category := (match category with
      | some c => if c == "" then none else some c
      | none => none) }

/-- The fixed fallback text dispatched by the catch block of `handleSubmit`.
It is a Croatian string hard-coded in the component, used for every
language. -/
def fallbackText : String :=
  "Došlo je do greške pri obradi vašeg upita. Molimo pokušajte ponovo."

/-- The user message appended by `handleSubmit` before the query is sent:
id is `Date.now().toString()` (here `toString t0`), text the trimmed input,
sender user, timestamp now, no sources. -/
def userMessage (input : String) (t0 : Nat) : Message :=
  { id := toString t0, text := jsTrim input, sender := .user,
    timestamp := t0, sources := none }

/-- The assistant message appended on success: id is
`(Date.now() + 1).toString()` (here `toString (t1 + 1)`), text the
payload's `response`, sources the payload's `sources`. -/
def assistantMessage (r : QueryResponse) (t1 : Nat) : Message :=
  { id := toString (t1 + 1), text := r.response, sender := .assistant,
    timestamp := t1, sources := r.sources }

/-- The assistant message appended by the catch block: the fixed fallback
text, no sources. -/
def fallbackMessage (t1 : Nat) : Message :=
  { id := toString (t1 + 1), text := fallbackText, sender := .assistant,
    timestamp := t1, sources := none }

/-- Rendering of the JavaScript value undefined stored in the text field
when a resolved body lacks `response`: the success branch assigns
`text: response.response` unchanged. The development only relies on this
value being distinct from real payload texts and from the fallback text;
the string rendering of undefined is used. -/
def undefinedText : String := "undefined"

/-- The assistant message appended by the success branch when the resolved
body lacks `response`: undefined text, the sources the payload carried —
no fallback is produced on this path. -/
def missingResponseMessage (srcs : Option (List Source)) (t1 : Nat) : Message :=
  { id := toString (t1 + 1), text := undefinedText, sender := .assistant,
    timestamp := t1, sources := srcs }

/-- The state right after `handleSubmit` passes its guard: the user message
is appended and typing is switched on. -/
def submitStarted (s : ConversationState) (input : String) (t0 : Nat) : ConversationState :=
  setCurrentTyping (addMessageToCurrent s (userMessage input t0)) true

/-- The dispatcher `handleSubmit` of the ChatInterface component. Guard:
`if (!input.trim() || isTyping) return` — on an all-whitespace input or a
busy session, nothing happens and no request is posted. Otherwise the user
message is appended, typing is set, the request is posted, and the
try/catch appends either the assistant message (outcome `ok`) or the
fallback message (outcomes `queryErr` and `handlerErr`); the finally block
always resets typing to false. Returns the final state together with the
request that was posted, if any. -/
def handleSubmit (s : ConversationState) (input language : String)
    (category : Option String) (outcome : QueryOutcome) (t0 t1 : Nat) :
    ConversationState × Option QueryRequest :=
  if jsTrim input = "" ∨ s.currentConversation.isTyping = true then (s, none)
  else
    let s1 := submitStarted s input t0
    let s2 := (match outcome with
      | .ok r => addMessageToCurrent s1 (assistantMessage r t1)
      | .okMissingResponse srcs => addMessageToCurrent s1 (missingResponseMessage srcs t1)
      | .queryErr => addMessageToCurrent s1 (fallbackMessage t1)
      | .handlerErr => addMessageToCurrent s1 (fallbackMessage t1))
    (setCurrentTyping s2 false, some (queryRequest input language category))

/-- The source presenter selection in SourcesPanel:
`currentConversation.messages.filter(msg => msg.sender === 'assistant').pop()`. -/
def lastAssistantMessage (msgs : List Message) : Option Message :=
  (msgs.filter (fun m => m.sender == Sender.assistant)).getLast?

/-- The presented citation list of SourcesPanel:
`lastAssistantMessage?.sources || []` — the sources of the most recently
appended assistant message, or the empty list when there is no assistant
message or it has no sources. -/
def panelSources (msgs : List Message) : List Source :=
  match lastAssistantMessage msgs with
  | none => []
  | some m => m.sources.getD []

/-- Title auto-generation of `handleNewConversation` in
ConversationHistory: the first 30 characters of the first user message,
with an ellipsis marker only when the text is longer than 30 characters;
a localized default when no user message exists. -/
def generateTitle (msgs : List Message) (language : String) : String :=
  match msgs.find? (fun m => m.sender == Sender.user) with
  | some m => m.text.take 30 ++ (if m.text.length > 30 then "..." else "")
  | none => if language == "hr" then "Novi razgovor" else "New conversation"

/-- The UI handler `handleNewConversation` of ConversationHistory: it
dispatches `createNewConversation` only when the current session is
non-empty; on an empty session it does nothing. -/
def handleNewConversation (s : ConversationState) (language : String) (now : Nat) :
    ConversationState :=
  if s.currentConversation.messages.length > 0 then
    createNewConversation s (generateTitle s.currentConversation.messages language) now
  else s

/-- A partial message, the `Partial<Message>` payload of the last-message
patch: each field optionally overrides the corresponding field. -/
structure MessagePatch where
  id : Option String := none
  text : Option String := none
  sender : Option Sender := none
  timestamp : Option Nat := none
  sources : Option (Option (List Source)) := none
deriving Repr

/-- The shallow field merge `Object.assign(lastMessage, payload)` applied
to one message. -/
def applyPatch (m : Message) (p : MessagePatch) : Message :=
  { id := p.id.getD m.id, text := p.text.getD m.text,
    sender := p.sender.getD m.sender, timestamp := p.timestamp.getD m.timestamp,
    sources := p.sources.getD m.sources }

/-- Patch of the most recently appended message of a list, the value-level
rendering of `updateLastMessage` in chatSlice (which guards on a non-empty
list and merges the payload into the last element). -/
def patchLastMessage (msgs : List Message) (p : MessagePatch) : List Message :=
  match msgs.getLast? with
  | none => msgs
  | some last => msgs.dropLast ++ [applyPatch last p]

/-- The operations that mutate the current session after a load or a
snapshot: append (`addMessageToCurrent`), the busy flag
(`setCurrentTyping`), clearing (`clearCurrentConversation`), and the
last-message patch of the spec data model (the `updateLastMessage` merge
applied to the current session messages). -/
inductive CurrentOp
  | append (m : Message)
  | setTyping (b : Bool)
  | clear
  | patchLast (p : MessagePatch)

/-- Interpretation of one current-session operation on the conversation
state. -/
def applyCurrentOp (s : ConversationState) : CurrentOp → ConversationState
  | .append m => addMessageToCurrent s m
  | .setTyping b => setCurrentTyping s b
  | .clear => clearCurrentConversation s
  | .patchLast p =>
      { s with currentConversation :=
          { s.currentConversation with
              messages := patchLastMessage s.currentConversation.messages p } }

/-- Interpretation of a sequence of current-session operations. -/
def applyCurrentOps (s : ConversationState) (ops : List CurrentOp) : ConversationState :=
  ops.foldl applyCurrentOp s

/-- An idle empty session, used as a concrete evaluation point. -/
def sampleIdle : ConversationState :=
  { conversations := [], activeConversationId := none,
    currentConversation := { messages := [], isTyping := false } }

/-- A concrete user message. -/
def demoUserMsg : Message :=
  { id := "u1", text := "Kako mogu otvoriti račun u banci?", sender := .user,
    timestamp := 10, sources := none }

/-- A concrete source citation. -/
def demoSource : Source :=
  { document_id := "d1", filename := "gdpr.pdf", chunk_index := 0,
    similarity := (87 : Rat) / 100, content := "GDPR text" }

/-- A concrete saved conversation with id 1. -/
def demoConv : Conversation :=
  { id := "1", title := "AI i bankarstvo", messages := [demoUserMsg],
    createdAt := 10, updatedAt := 10 }

/-- A state holding one saved conversation, with it active and the session
idle. -/
def sampleActive : ConversationState :=
  { conversations := [demoConv], activeConversationId := some "1",
    currentConversation := { messages := [], isTyping := false } }

/-- A state holding one saved conversation, with it active and the session
busy. -/
def sampleBusyActive : ConversationState :=
  { conversations := [demoConv], activeConversationId := some "1",
    currentConversation := { messages := [], isTyping := true } }

/-- A state whose active pointer is stale: it names an id that is not in
the conversation list. -/
def sampleStaleActive : ConversationState :=
  { conversations := [], activeConversationId := some "x",
    currentConversation := { messages := [demoUserMsg], isTyping := false } }

/-- A state whose current session holds one message. -/
def sampleWithMsg : ConversationState :=
  { conversations := [demoConv], activeConversationId := none,
    currentConversation := { messages := [demoUserMsg], isTyping := false } }

/-- The guard of `handleSubmit` is false when the trimmed input is
non-empty and the session is idle. -/
theorem handleSubmit_guard_false {s : ConversationState} {input : String}
    (hne : jsTrim input ≠ "") (hidle : s.currentConversation.isTyping = false) :
    ¬ (jsTrim input = "" ∨ s.currentConversation.isTyping = true) := by
  rintro (h | h)
  · exact hne h
  · rw [hidle] at h
    exact Bool.false_ne_true h

/-- C1: a submit that passes the precondition switches the busy flag on,
and on every completion path — success, a resolved body missing
`response`, query failure, and a throw inside the completion handling
itself — the finally step leaves the busy flag false. -/
theorem submit_always_resets_busy (s : ConversationState) (input language : String)
    (category : Option String) (outcome : QueryOutcome) (t0 t1 : Nat)
    (hne : jsTrim input ≠ "") (hidle : s.currentConversation.isTyping = false) :
    (submitStarted s input t0).currentConversation.isTyping = true ∧
    ((handleSubmit s input language category outcome t0 t1).1).currentConversation.isTyping
      = false := by
  refine ⟨rfl, ?_⟩
  have hcond := handleSubmit_guard_false hne hidle
  cases outcome <;>
    simp [handleSubmit, hcond, setCurrentTyping]

/-- Witness for C1 at a concrete idle state and failing query. -/
theorem submit_always_resets_busy_witness :
    (jsTrim "Hi" ≠ "") ∧ sampleIdle.currentConversation.isTyping = false ∧
    ((handleSubmit sampleIdle "Hi" "en" none .queryErr 5 6).1).currentConversation.isTyping
      = false :=
  ⟨by decide, rfl,
    (submit_always_resets_busy sampleIdle "Hi" "en" none .queryErr 5 6 (by decide) rfl).2⟩

/-- C2: a successful submit appends exactly the user message (trimmed
input text) followed by the assistant message built from the payload
(`response` text, `sources` as returned), and the busy flag goes true
during the call and false at the end. -/
theorem submit_success_appends_two (s : ConversationState) (input language : String)
    (category : Option String) (r : QueryResponse) (t0 t1 : Nat)
    (hne : jsTrim input ≠ "") (hidle : s.currentConversation.isTyping = false) :
    ((handleSubmit s input language category (.ok r) t0 t1).1).currentConversation.messages
      = s.currentConversation.messages ++ [userMessage input t0, assistantMessage r t1] ∧
    (userMessage input t0).sender = Sender.user ∧
    (userMessage input t0).text = jsTrim input ∧
    (assistantMessage r t1).sender = Sender.assistant ∧
    (assistantMessage r t1).text = r.response ∧
    (assistantMessage r t1).sources = r.sources ∧
    (submitStarted s input t0).currentConversation.isTyping = true ∧
    ((handleSubmit s input language category (.ok r) t0 t1).1).currentConversation.isTyping
      = false := by
  have hcond := handleSubmit_guard_false hne hidle
  refine ⟨?_, rfl, rfl, rfl, rfl, rfl, rfl, ?_⟩ <;>
    simp [handleSubmit, hcond, submitStarted, addMessageToCurrent, setCurrentTyping]

/-- A concrete successful payload with one source. -/
def demoResponse : QueryResponse :=
  { response := "GDPR je uredba o zaštiti podataka.", sources := some [demoSource] }

/-- Witness for C2 at a concrete idle state and successful query. -/
theorem submit_success_appends_two_witness :
    (jsTrim "What is GDPR?" ≠ "") ∧ sampleIdle.currentConversation.isTyping = false ∧
    ((handleSubmit sampleIdle "What is GDPR?" "en" none (.ok demoResponse) 5 6).1).currentConversation.messages
      = [userMessage "What is GDPR?" 5, assistantMessage demoResponse 6] :=
  ⟨by decide, rfl, by
    have h := (submit_success_appends_two sampleIdle "What is GDPR?" "en" none demoResponse
      5 6 (by decide) rfl).1
    simpa [sampleIdle] using h⟩

/-- Counterexample for C3, in two parts. Language: the fallback assistant
message appended on a throwing query is the fixed Croatian text even when
the language argument is the English "en" — the identical text is produced
for "hr" — so its text does not track the language argument. Malformed
payload: a resolved 2xx body missing `response` takes the success branch,
appending an assistant message with undefined text carrying the payload
sources — it is not the fallback message, which never appears on that
path. -/
theorem submit_fallback_ignores_language :
    (((handleSubmit sampleIdle "Hello" "en" none .queryErr 5 6).1).currentConversation.messages.getLast?).map
        Message.text = some fallbackText ∧
    (((handleSubmit sampleIdle "Hello" "hr" none .queryErr 5 6).1).currentConversation.messages.getLast?).map
        Message.text = some fallbackText ∧
    fallbackText = "Došlo je do greške pri obradi vašeg upita. Molimo pokušajte ponovo." ∧
    ((handleSubmit sampleIdle "Hello" "en" none
        (.okMissingResponse (some [demoSource])) 5 6).1).currentConversation.messages.getLast?
      = some (missingResponseMessage (some [demoSource]) 6) ∧
    missingResponseMessage (some [demoSource]) 6 ≠ fallbackMessage 6 ∧
    (missingResponseMessage (some [demoSource]) 6).text ≠ fallbackText ∧
    (missingResponseMessage (some [demoSource]) 6).sources ≠ none := by
  refine ⟨rfl, rfl, rfl, rfl, ?_, ?_, ?_⟩ <;> decide

/-- C3 as amended: when the awaited query call throws (network error or
non-success status, or a throw inside the success handling), exactly one
user message and one fallback assistant message are appended; the fallback
is deterministic — the fixed Croatian text, independent of the language
argument — and has no sources; the run ends with the busy flag false. A
resolved payload missing `response` is not treated as failure: the success
branch appends an assistant message with undefined text and the payload
sources instead of the fallback, and the run still ends not busy. -/
theorem submit_failure_appends_fallback (s : ConversationState) (input language : String)
    (category : Option String) (outcome : QueryOutcome) (t0 t1 : Nat)
    (hfail : outcome = .queryErr ∨ outcome = .handlerErr)
    (hne : jsTrim input ≠ "") (hidle : s.currentConversation.isTyping = false) :
    ((handleSubmit s input language category outcome t0 t1).1).currentConversation.messages
      = s.currentConversation.messages ++ [userMessage input t0, fallbackMessage t1] ∧
    (userMessage input t0).sender = Sender.user ∧
    (fallbackMessage t1).sender = Sender.assistant ∧
    (fallbackMessage t1).text = fallbackText ∧
    (fallbackMessage t1).sources = none ∧
    ((handleSubmit s input language category outcome t0 t1).1).currentConversation.isTyping
      = false ∧
    (∀ srcs : Option (List Source),
      ((handleSubmit s input language category (.okMissingResponse srcs) t0 t1).1).currentConversation.messages
        = s.currentConversation.messages
            ++ [userMessage input t0, missingResponseMessage srcs t1] ∧
      (missingResponseMessage srcs t1).text ≠ fallbackText ∧
      ((handleSubmit s input language category (.okMissingResponse srcs) t0 t1).1).currentConversation.isTyping
        = false) := by
  have hcond := handleSubmit_guard_false hne hidle
  have hmal : ∀ srcs : Option (List Source),
      ((handleSubmit s input language category (.okMissingResponse srcs) t0 t1).1).currentConversation.messages
        = s.currentConversation.messages
            ++ [userMessage input t0, missingResponseMessage srcs t1] ∧
      (missingResponseMessage srcs t1).text ≠ fallbackText ∧
      ((handleSubmit s input language category (.okMissingResponse srcs) t0 t1).1).currentConversation.isTyping
        = false := by
    intro srcs
    exact ⟨by simp [handleSubmit, hcond, submitStarted, addMessageToCurrent, setCurrentTyping],
      by show undefinedText ≠ fallbackText; decide,
      by simp [handleSubmit, hcond, setCurrentTyping]⟩
  rcases hfail with h | h <;> subst h <;>
    exact ⟨by simp [handleSubmit, hcond, submitStarted, addMessageToCurrent, setCurrentTyping],
      rfl, rfl, rfl, rfl,
      by simp [handleSubmit, hcond, setCurrentTyping], hmal⟩

/-- Witness for the amended C3 at a concrete idle state, on the throwing
path and on the malformed-payload path. -/
theorem submit_failure_appends_fallback_witness :
    (QueryOutcome.queryErr = QueryOutcome.queryErr ∨
      QueryOutcome.queryErr = QueryOutcome.handlerErr) ∧
    (jsTrim "Hello" ≠ "") ∧ sampleIdle.currentConversation.isTyping = false ∧
    ((handleSubmit sampleIdle "Hello" "en" none .queryErr 5 6).1).currentConversation.messages
      = [userMessage "Hello" 5, fallbackMessage 6] ∧
    ((handleSubmit sampleIdle "Hello" "en" none
        (.okMissingResponse (some [demoSource])) 5 6).1).currentConversation.messages
      = [userMessage "Hello" 5, missingResponseMessage (some [demoSource]) 6] :=
  ⟨Or.inl rfl, by decide, rfl, by
    have h := (submit_failure_appends_fallback sampleIdle "Hello" "en" none .queryErr 5 6
      (Or.inl rfl) (by decide) rfl).1
    simpa [sampleIdle] using h, by
    have h := ((submit_failure_appends_fallback sampleIdle "Hello" "en" none .queryErr 5 6
      (Or.inl rfl) (by decide) rfl).2.2.2.2.2.2 (some [demoSource])).1
    simpa [sampleIdle] using h⟩

/-- C4: on an input whose trimmed form is empty, or while the session is
busy, `handleSubmit` is a complete no-op: the state is returned untouched
and no request is posted to the endpoint. -/
theorem submit_noop_on_empty_or_busy (s : ConversationState) (input language : String)
    (category : Option String) (outcome : QueryOutcome) (t0 t1 : Nat)
    (h : jsTrim input = "" ∨ s.currentConversation.isTyping = true) :
    handleSubmit s input language category outcome t0 t1 = (s, none) := by
  unfold handleSubmit
  rw [if_pos h]

/-- Witness for C4 on an all-whitespace input and on a busy session. -/
theorem submit_noop_on_empty_or_busy_witness :
    (jsTrim "   " = "" ∨ sampleIdle.currentConversation.isTyping = true) ∧
    handleSubmit sampleIdle "   " "en" none .queryErr 0 0 = (sampleIdle, none) ∧
    (jsTrim "Hello" = "" ∨ sampleBusyActive.currentConversation.isTyping = true) ∧
    handleSubmit sampleBusyActive "Hello" "en" none .queryErr 0 0 = (sampleBusyActive, none) :=
  ⟨Or.inl (by decide),
    submit_noop_on_empty_or_busy sampleIdle "   " "en" none .queryErr 0 0 (Or.inl (by decide)),
    Or.inr rfl,
    submit_noop_on_empty_or_busy sampleBusyActive "Hello" "en" none .queryErr 0 0 (Or.inr rfl)⟩

/-- One current-session operation never touches the saved conversation list
or the active pointer. -/
theorem applyCurrentOp_frame (s : ConversationState) (op : CurrentOp) :
    (applyCurrentOp s op).conversations = s.conversations ∧
    (applyCurrentOp s op).activeConversationId = s.activeConversationId := by
  cases op <;> exact ⟨rfl, rfl⟩

/-- A sequence of current-session operations never touches the saved
conversation list. -/
theorem applyCurrentOps_frame (ops : List CurrentOp) (s : ConversationState) :
    (applyCurrentOps s ops).conversations = s.conversations := by
  induction ops generalizing s with
  | nil => rfl
  | cons op rest ih =>
      calc (applyCurrentOps (applyCurrentOp s op) rest).conversations
          = (applyCurrentOp s op).conversations := ih _
        _ = s.conversations := (applyCurrentOp_frame s op).1

/-- C5: loading an existing conversation makes the session messages
value-equal to the stored ones, and afterwards no sequence of
current-session mutations — appends, busy-flag flips, clears, or patches of
the last message — alters the stored conversation list; symmetrically, the
snapshot taken by `createNewConversation` carries the session messages by
value and later current-session mutations leave the stored list untouched. -/
theorem load_is_structural_copy (s : ConversationState) (id : String) (c : Conversation)
    (hfind : s.conversations.find? (fun c => c.id == id) = some c) :
    (loadConversation s id).currentConversation.messages = c.messages ∧
    (∀ ops : List CurrentOp,
      (applyCurrentOps (loadConversation s id) ops).conversations
        = (loadConversation s id).conversations) ∧
    (∀ title now,
      (createNewConversation s title now).conversations.head?.map Conversation.messages
        = some s.currentConversation.messages ∧
      ∀ ops : List CurrentOp,
        (applyCurrentOps (createNewConversation s title now) ops).conversations
          = (createNewConversation s title now).conversations) := by
  refine ⟨?_, fun ops => applyCurrentOps_frame ops _, fun title now =>
    ⟨rfl, fun ops => applyCurrentOps_frame ops _⟩⟩
  simp [loadConversation, hfind]

/-- Witness for C5: loading the demo conversation copies its messages, and
patching the last session message afterwards leaves the stored list
unchanged. -/
theorem load_is_structural_copy_witness :
    sampleActive.conversations.find? (fun c => c.id == "1") = some demoConv ∧
    (loadConversation sampleActive "1").currentConversation.messages = demoConv.messages ∧
    (applyCurrentOps (loadConversation sampleActive "1")
        [CurrentOp.patchLast { text := some "edited" }]).conversations
      = (loadConversation sampleActive "1").conversations :=
  ⟨by rfl,
    (load_is_structural_copy sampleActive "1" demoConv (by rfl)).1,
    (load_is_structural_copy sampleActive "1" demoConv (by rfl)).2.1
      [CurrentOp.patchLast { text := some "edited" }]⟩

/-- C6: snapshotting a non-empty session inserts the new conversation at
the head of a list one longer, carrying the generated id, the given title,
the session messages, and matching creation and update stamps; the new id
becomes active and the session empties. -/
theorem createFromCurrent_snapshot (s : ConversationState) (title : String) (now : Nat)
    (_hne : s.currentConversation.messages ≠ []) :
    (createNewConversation s title now).conversations.length
      = s.conversations.length + 1 ∧
    (createNewConversation s title now).conversations.head? =
      some { id := toString now, title := title,
             messages := s.currentConversation.messages,
             createdAt := now, updatedAt := now } ∧
    (createNewConversation s title now).activeConversationId = some (toString now) ∧
    (createNewConversation s title now).currentConversation.messages = [] :=
  ⟨rfl, rfl, rfl, rfl⟩

/-- Witness for C6 at a state whose session holds one message. -/
theorem createFromCurrent_snapshot_witness :
    sampleWithMsg.currentConversation.messages ≠ [] ∧
    (createNewConversation sampleWithMsg "T" 42).conversations.length
      = sampleWithMsg.conversations.length + 1 ∧
    (createNewConversation sampleWithMsg "T" 42).activeConversationId = some "42" :=
  ⟨by decide,
    (createFromCurrent_snapshot sampleWithMsg "T" 42 (by decide)).1,
    (createFromCurrent_snapshot sampleWithMsg "T" 42 (by decide)).2.2.1⟩

/-- Counterexample for C7: deleting the active conversation while the busy
flag is set leaves the busy flag set — the reducer empties the session
messages but does not reset `isTyping`, so current is not cleared in the
sense of `clearCurrentConversation`. -/
theorem delete_active_leaves_busy :
    sampleBusyActive.activeConversationId = some "1" ∧
    (deleteConversation sampleBusyActive "1").currentConversation.isTyping ≠ false := by
  exact ⟨rfl, by decide⟩

/-- C7 as amended: deleting the active conversation removes it from the
list, nulls the active pointer, and empties the session messages, but
leaves the busy flag exactly as it was. -/
theorem delete_active_state (s : ConversationState) (id : String)
    (hact : s.activeConversationId = some id) :
    (deleteConversation s id).conversations
      = s.conversations.filter (fun c => !(c.id == id)) ∧
    (∀ c ∈ (deleteConversation s id).conversations, c.id ≠ id) ∧
    (deleteConversation s id).activeConversationId = none ∧
    (deleteConversation s id).currentConversation.messages = [] ∧
    (deleteConversation s id).currentConversation.isTyping
      = s.currentConversation.isTyping := by
  unfold deleteConversation
  rw [if_pos hact]
  refine ⟨rfl, ?_, rfl, rfl, rfl⟩
  intro c hc
  have := List.of_mem_filter hc
  simpa using this

/-- Witness for the amended C7 at the busy active state. -/
theorem delete_active_state_witness :
    sampleBusyActive.activeConversationId = some "1" ∧
    (deleteConversation sampleBusyActive "1").activeConversationId = none ∧
    (deleteConversation sampleBusyActive "1").currentConversation.messages = [] ∧
    (deleteConversation sampleBusyActive "1").currentConversation.isTyping
      = sampleBusyActive.currentConversation.isTyping :=
  ⟨rfl,
    (delete_active_state sampleBusyActive "1" rfl).2.2.1,
    (delete_active_state sampleBusyActive "1" rfl).2.2.2.1,
    (delete_active_state sampleBusyActive "1" rfl).2.2.2.2⟩

/-- Counterexample for C8: when the active pointer is stale — it names an
id absent from the conversation list — `deleteConversation` of that id is
not a no-op: it nulls the pointer and empties the session messages, so the
resulting state differs from the prior one. -/
theorem delete_unknown_stale_changes_state :
    (∀ c ∈ sampleStaleActive.conversations, c.id ≠ "x") ∧
    deleteConversation sampleStaleActive "x" ≠ sampleStaleActive := by
  refine ⟨?_, by decide⟩
  intro c hc
  exact absurd hc (List.not_mem_nil c)

/-- C8 as amended: for an id absent from the conversation list, `load` and
`renameConversation` are exact no-ops; `saveCurrentInto` is an exact no-op
when the active pointer is null or names that absent id; and `delete` is an
exact no-op provided the active pointer does not name the absent id — if a
stale pointer equals it, delete still nulls the pointer and empties the
session messages. -/
theorem unknown_id_lookup_noop (s : ConversationState) (id : String)
    (h : ∀ c ∈ s.conversations, c.id ≠ id) :
    loadConversation s id = s ∧
    (∀ title now, updateConversationTitle s id title now = s) ∧
    (∀ title now, s.activeConversationId = none →
      saveCurrentConversation s title now = s) ∧
    (∀ title now, s.activeConversationId = some id →
      saveCurrentConversation s title now = s) ∧
    (s.activeConversationId ≠ some id → deleteConversation s id = s) := by
  have hfind : s.conversations.find? (fun c => c.id == id) = none := by
    rw [List.find?_eq_none]
    intro c hc
    simpa using h c hc
  have hfilter : s.conversations.filter (fun c => !(c.id == id)) = s.conversations := by
    rw [List.filter_eq_self]
    intro c hc
    simpa using h c hc
  refine ⟨?_, ?_, ?_, ?_, ?_⟩
  · simp [loadConversation, hfind]
  · intro title now
    simp [updateConversationTitle, hfind]
  · intro title now h0
    simp [saveCurrentConversation, h0]
  · intro title now h1
    simp [saveCurrentConversation, h1, hfind]
  · intro hne
    simp [deleteConversation, if_neg hne, hfilter]

/-- Witness for the amended C8 on a state with one saved conversation and
an unknown id. -/
theorem unknown_id_lookup_noop_witness :
    (∀ c ∈ sampleActive.conversations, c.id ≠ "zzz") ∧
    loadConversation sampleActive "zzz" = sampleActive ∧
    updateConversationTitle sampleActive "zzz" "T" 7 = sampleActive ∧
    saveCurrentConversation sampleWithMsg (some "T") 7 = sampleWithMsg ∧
    deleteConversation sampleActive "zzz" = sampleActive := by
  have h : ∀ c ∈ sampleActive.conversations, c.id ≠ "zzz" := by decide
  have h2 : ∀ c ∈ sampleWithMsg.conversations, c.id ≠ "zzz" := by decide
  exact ⟨h,
    (unknown_id_lookup_noop sampleActive "zzz" h).1,
    (unknown_id_lookup_noop sampleActive "zzz" h).2.1 "T" 7,
    (unknown_id_lookup_noop sampleWithMsg "zzz" h2).2.2.1 (some "T") 7 rfl,
    (unknown_id_lookup_noop sampleActive "zzz" h).2.2.2.2 (by decide)⟩

/-- C9: the presenter selects the most recently appended assistant message;
with no assistant message the derived citation list is empty, and when the
last assistant message is known its stored sources list is presented as-is
(defaulting to empty when the field is absent). -/
theorem panel_shows_last_assistant_sources (msgs : List Message) :
    ((∀ m ∈ msgs, m.sender ≠ Sender.assistant) → panelSources msgs = []) ∧
    (∀ pre a post, msgs = pre ++ a :: post → a.sender = Sender.assistant →
      (∀ b ∈ post, b.sender ≠ Sender.assistant) →
      lastAssistantMessage msgs = some a ∧
      panelSources msgs = a.sources.getD []) := by
  constructor
  · intro hnone
    have hfilter : msgs.filter (fun m => m.sender == Sender.assistant) = [] := by
      rw [List.filter_eq_nil_iff]
      intro m hm
      simpa using hnone m hm
    simp [panelSources, lastAssistantMessage, hfilter]
  · intro pre a post heq ha hpost
    subst heq
    have hpostf : post.filter (fun m => m.sender == Sender.assistant) = [] := by
      rw [List.filter_eq_nil_iff]
      intro m hm
      simpa using hpost m hm
    have hlast : lastAssistantMessage (pre ++ a :: post) = some a := by
      unfold lastAssistantMessage
      rw [List.filter_append, List.filter_cons_of_pos (by simpa using ha), hpostf]
      exact List.getLast?_concat _
    exact ⟨hlast, by simp [panelSources, hlast]⟩

/-- A concrete assistant message with no source list. -/
def demoAssistant1 : Message :=
  { id := "a1", text := "Prvi odgovor", sender := .assistant,
    timestamp := 11, sources := some [] }

/-- A concrete second user message. -/
def demoUserMsg2 : Message :=
  { id := "u2", text := "Što je GDPR?", sender := .user,
    timestamp := 12, sources := none }

/-- A concrete assistant message carrying one source. -/
def demoAssistant2 : Message :=
  { id := "a2", text := "Drugi odgovor", sender := .assistant,
    timestamp := 13, sources := some [demoSource] }

/-- Witness for C9: with two assistant messages only the sources of the
later one are presented, and a session with no assistant messages presents
none. -/
theorem panel_shows_last_assistant_sources_witness :
    ([demoUserMsg, demoAssistant1, demoUserMsg2, demoAssistant2]
        = [demoUserMsg, demoAssistant1, demoUserMsg2] ++ demoAssistant2 :: []) ∧
    demoAssistant2.sender = Sender.assistant ∧
    panelSources [demoUserMsg, demoAssistant1, demoUserMsg2, demoAssistant2]
      = demoAssistant2.sources.getD [] ∧
    panelSources [demoUserMsg] = [] :=
  ⟨rfl, rfl,
    ((panel_shows_last_assistant_sources
        [demoUserMsg, demoAssistant1, demoUserMsg2, demoAssistant2]).2
      [demoUserMsg, demoAssistant1, demoUserMsg2] demoAssistant2 [] rfl rfl
      (fun b hb => absurd hb (List.not_mem_nil b))).2,
    (panel_shows_last_assistant_sources [demoUserMsg]).1 (by decide)⟩

/-- C10: the store operation `createNewConversation` does not reject an
empty session: it still inserts a conversation with an empty message list
at the head, activates its fresh id, and leaves the session empty; the
non-empty guard lives only in the UI handler, which on an empty session
leaves the state untouched. -/
theorem createFromCurrent_empty_allowed (s : ConversationState) (title : String)
    (now : Nat) (h : s.currentConversation.messages = []) :
    (createNewConversation s title now).conversations.length
      = s.conversations.length + 1 ∧
    (createNewConversation s title now).conversations.head? =
      some { id := toString now, title := title, messages := [],
             createdAt := now, updatedAt := now } ∧
    (createNewConversation s title now).activeConversationId = some (toString now) ∧
    (createNewConversation s title now).currentConversation.messages = [] ∧
    (∀ language, handleNewConversation s language now = s) := by
  refine ⟨rfl, ?_, rfl, rfl, ?_⟩
  · simp [createNewConversation, h]
  · intro language
    simp [handleNewConversation, h]

/-- Witness for C10 at the empty idle state. -/
theorem createFromCurrent_empty_allowed_witness :
    sampleIdle.currentConversation.messages = [] ∧
    (createNewConversation sampleIdle "T" 9).conversations.length
      = sampleIdle.conversations.length + 1 ∧
    (createNewConversation sampleIdle "T" 9).activeConversationId = some "9" ∧
    handleNewConversation sampleIdle "en" 9 = sampleIdle :=
  ⟨rfl,
    (createFromCurrent_empty_allowed sampleIdle "T" 9 rfl).1,
    (createFromCurrent_empty_allowed sampleIdle "T" 9 rfl).2.2.1,
    (createFromCurrent_empty_allowed sampleIdle "T" 9 rfl).2.2.2.2 "en"⟩
